import Mathlib

/-!
Shallow embedding of the twocaptcha Go package (src/twocaptcha.go).

The HTTP transport is modelled as a script: a list of optional parsed
responses, one entry per request the code issues, where none stands for a
response body that fails to unmarshal. Errors built with errors.New are
modelled by their message strings.
-/

namespace TwoCaptcha

/-- Parsed JSON body of a 2captcha service response: a status field
(0 usually represents error, 1 represents a valid request) and the payload
string, named request in the wire format. -/
structure CaptchaResponse where
  status : Int
  response : String
deriving DecidableEq

/-- Go map from string to string, embedded as an association list. -/
abbrev Smap := List (String × String)

def validTypes : List String := ["recaptchaV2", "recaptchaV3", "funcaptcha"]

def validV3Scores : List String := [".1", ".3", ".9"]

def capRequestURL : String := "https://2captcha.com/in.php?json=1"

def capResultURL : String := "https://2captcha.com/res.php?json=1"

/-- The captchaErrors table in source order. Note the source holds two
distinct keys, the misspelled CAPCHA_NOT_READY actually sent by the service
and the correctly spelled CAPTCHA_NOT_READY. -/
def captchaErrors : List (String × String) :=
  [("CAPCHA_NOT_READY", "handled by program"),
   ("ERROR_NO_SLOT_AVAILABLE", "handled by program"),
   ("ERROR_WRONG_USER_KEY", "invalidly formatted api key"),
   ("ERROR_KEY_DOES_NOT_EXIST", "invalid api key"),
   ("ERROR_ZERO_BALANCE", "[in] empty account balance"),
   ("IP_BANNED", "[in] ip banned, contact 2captcha"),
   ("ERROR_BAD_TOKEN_OR_PAGEURL", "[in] recapv2 invalid token/pageurl"),
   ("ERROR_GOOGLEKEY", "[in] recapv2 invalid sitekey"),
   ("MAX_USER_TURN", "[in] too many requests, temp 10s ban"),
   ("CAPTCHA_NOT_READY", "[res] captcha not ready"),
   ("ERROR_CAPTCHA_UNSOLVABLE", "[res] unsolvable captcha"),
   ("ERROR_WRONG_ID_FORMAT", "[res] invalidly formatted captcha id"),
   ("ERROR_WRONG_CAPTCHA_ID", "[res] invalid captcha id"),
   ("ERROR_BAD_DUPLICATES", "[res] not enough matches"),
   ("ERROR_EMPTY_ACTION", "[res] action not found")]

/-- CaptchaInstance record. The HTTPClient pointer is modelled as a flag
recording whether a client has been assigned. -/
structure CaptchaInstance where
  APIKey : String
  CaptchaType : String
  CreateTaskURL : String
  SettingInfo : Smap
  HTTPClient : Bool
deriving DecidableEq

/-- Zero value of CaptchaInstance, the state of the named return value of
NewInstance before any field assignment. -/
def zeroInstance : CaptchaInstance :=
  { APIKey := "", CaptchaType := "", CreateTaskURL := "", SettingInfo := [], HTTPClient := false }

/-- checkError from the source: on failure status, scan the captchaErrors
table for the response string; return the matching key and error, or empty
key and nil error when nothing matches. Map iteration order is irrelevant
because keys are unique. -/
def checkError (responseStruct : CaptchaResponse) : String × Option String :=
  if responseStruct.status = 0 then
    match captchaErrors.find? (fun p => responseStruct.response == p.1) with
    | some p => (p.1, some p.2)
    | none => ("", none)
  else ("", none)

/-- keyInMap from the source: membership test on a string map. -/
def keyInMap (inputMap : Smap) (key : String) : Bool :=
  (inputMap.find? (fun p => p.1 == key)).isSome

/-- stringInSlice from the source: membership test on a string slice. -/
def stringInSlice (inputSlice : List String) (key : String) : Bool :=
  inputSlice.any (fun item => key == item)

/-- Go map indexing m[k], which yields the empty string when the key is
absent. -/
def mapGet (inputMap : Smap) (key : String) : String :=
  ((inputMap.find? (fun p => p.1 == key)).map Prod.snd).getD ""

/-- Result of running NewInstance against a balance-check transport script:
the returned instance, the returned error message, and how many network
requests were issued. -/
structure NewInstanceRun where
  inst : CaptchaInstance
  finalErr : Option String
  networkCalls : Nat
deriving DecidableEq

/-- The captcha-type switch of NewInstance, source lines 120 to 145.
An error result models a branch that sets finalErr and breaks OuterLoop;
an ok result models falling through the switch, carrying the current value
of finalErr: the invalid-score branch of the source sets finalErr without
breaking, so the ok payload is that pending error. -/
def variantKeyCheck (captchaType : String) (captchaParams : Smap) :
    Except String (Option String) :=
  if captchaType = "recaptchaV2" then
    if !(keyInMap captchaParams "sitekey" && keyInMap captchaParams "siteurl") then
      .error "missing parameter(s) within captchaParams for recaptchaV2"
    else .ok none
  else if captchaType = "recaptchaV3" then
    if !(keyInMap captchaParams "sitekey" && keyInMap captchaParams "siteurl" &&
        keyInMap captchaParams "action" && keyInMap captchaParams "minscore") then
      .error "missing parameter(s) within captchaParams for recaptchaV3"
    else if !(stringInSlice validV3Scores (mapGet captchaParams "minscore")) then
      .ok (some "invalid recaptchaV3 score (.1/.3/.9)")
    else .ok none
  else if captchaType = "funcaptcha" then
    if !(keyInMap captchaParams "key" && keyInMap captchaParams "surl" &&
        keyInMap captchaParams "siteurl") then
      .error "missing parameter(s) within captchaParams for funcaptcha"
    else .ok none
  else .error "invalid captcha type (this shouldn\x27t happen)"

/-- NewInstance, source lines 101 to 203. The balance check issues exactly
one request because checkResponse always returns true, so balanceResp is a
single optional parsed response. The second switch, source line 177, reads
the named return value instance whose fields are still the zero value, so it
is written here over zeroInstance exactly as the source behaves; its case
bodies append the variant fields to requestURL, the balance URL, which is
then dropped, again as in the source. -/
def NewInstance (apiKey captchaType : String) (captchaParams settingParams : Smap)
    (balanceResp : Option CaptchaResponse) : NewInstanceRun :=
  if !(keyInMap settingParams "timeBetweenReqs") then
    { inst := zeroInstance, finalErr := some "missing parameter(s) within settingParams",
      networkCalls := 0 }
  else if !(stringInSlice validTypes captchaType) then
    { inst := zeroInstance, finalErr := some "invalid captcha type", networkCalls := 0 }
  else
    match variantKeyCheck captchaType captchaParams with
    | .error msg => { inst := zeroInstance, finalErr := some msg, networkCalls := 0 }
    | .ok finalErr0 =>
      let requestURL := capResultURL ++ "&action=getBalance&key=" ++ apiKey
      match balanceResp with
      | none =>
        { inst := zeroInstance, finalErr := some "error unmarshalling (this shouldn\x27t happen)",
          networkCalls := 1 }
      | some balanceStruct =>
        match checkError balanceStruct with
        | (_, some e) => { inst := zeroInstance, finalErr := some e, networkCalls := 1 }
        | (_, none) =>
          let createTaskURL := capRequestURL ++ "&key=" ++ zeroInstance.APIKey
          if zeroInstance.CaptchaType = "recaptchaV2" then
            let _requestURL := requestURL ++ "method=userrecaptcha&googlekey=" ++
              mapGet captchaParams "sitekey" ++ "&pageurl=" ++ mapGet captchaParams "siteurl"
            { inst := { APIKey := apiKey, CaptchaType := captchaType,
                        CreateTaskURL := createTaskURL, SettingInfo := settingParams,
                        HTTPClient := true },
              finalErr := finalErr0, networkCalls := 1 }
          else if zeroInstance.CaptchaType = "recaptchaV3" then
            let _requestURL := requestURL ++ "method=userrecaptcha&version=v3&googlekey=" ++
              mapGet captchaParams "sitekey" ++ "&pageurl=" ++ mapGet captchaParams "siteurl" ++
              "&action=" ++ mapGet captchaParams "action" ++
              "&min_score=" ++ mapGet captchaParams "minScore"
            { inst := { APIKey := apiKey, CaptchaType := captchaType,
                        CreateTaskURL := createTaskURL, SettingInfo := settingParams,
                        HTTPClient := true },
              finalErr := finalErr0, networkCalls := 1 }
          else if zeroInstance.CaptchaType = "funcaptcha" then
            let _requestURL := requestURL ++ "method=funcaptcha&publickey=" ++
              mapGet captchaParams "sitekey" ++ "&surl=" ++ mapGet captchaParams "surl" ++
              "&pageurl=" ++ mapGet captchaParams "siteurl"
            { inst := { APIKey := apiKey, CaptchaType := captchaType,
                        CreateTaskURL := createTaskURL, SettingInfo := settingParams,
                        HTTPClient := true },
              finalErr := finalErr0, networkCalls := 1 }
          else
            { inst := zeroInstance,
              finalErr := some "invalid captcha type (this shouldn\x27t happen!)",
              networkCalls := 1 }

/-- Which loop of SolveCaptcha is executing. The polling phase carries the
task-creation response because the source, line 276, re-checks that response
object, not the solution response, and the solution-check URL built at line
249. -/
inductive Phase where
  | creating : Phase
  | polling : CaptchaResponse → String → Phase
deriving DecidableEq

/-- Observable outcome of running SolveCaptcha against a finite transport
script: either the function returned, with the values of the solution and
finalErr variables at that point, or the script ran out while the code was
about to issue another request in the given phase. -/
inductive SolveOutcome where
  | finished : String → Option String → SolveOutcome
  | outOfScript : Phase → String → SolveOutcome
deriving DecidableEq

/-- Trace of a SolveCaptcha run: outcome, how many times time.Sleep ran with
the poll interval, and the request targets issued in order. -/
structure SolveRun where
  outcome : SolveOutcome
  sleeps : Nat
  requests : List String
deriving DecidableEq

/-- The loops of SolveCaptcha, source lines 208 to 288. Each transition
consumes one script entry, one per HTTP request; checkResponse always
returns true so each inner retry loop issues exactly one request. After the
solution loop stores a solution and breaks, control falls to the end of the
unconditional outer loop and task creation starts over, exactly as in the
source, which has no exit on success. -/
def SolveCaptchaLoop (inst : CaptchaInstance) :
    Phase → List (Option CaptchaResponse) → String → Nat → List String → SolveRun
  | phase, [], solution, sleeps, requests =>
      { outcome := .outOfScript phase solution, sleeps := sleeps, requests := requests }
  | .creating, none :: _, solution, sleeps, requests =>
      { outcome := .finished solution (some "error unmarshalling (this shouldn\x27t happen)"),
        sleeps := sleeps, requests := requests ++ [inst.CreateTaskURL] }
  | .creating, some taskStruct :: rest, solution, sleeps, requests =>
      (match checkError taskStruct with
      | (errKey, some e) =>
          if errKey = "ERROR_NO_SLOT_AVAILABLE" then
            SolveCaptchaLoop inst .creating rest solution (sleeps + 1)
              (requests ++ [inst.CreateTaskURL])
          else
            { outcome := .finished solution (some e), sleeps := sleeps,
              requests := requests ++ [inst.CreateTaskURL] }
      | (_, none) =>
          SolveCaptchaLoop inst
            (.polling taskStruct
              (capResultURL ++ "&key=" ++ inst.APIKey ++ "&action=get&id=" ++
                taskStruct.response))
            rest solution sleeps (requests ++ [inst.CreateTaskURL]))
  | .polling taskStruct checkSolutionURL, none :: _, solution, sleeps, requests =>
      { outcome := .finished solution (some "error unmarshalling (this shouldn\x27t happen)"),
        sleeps := sleeps, requests := requests ++ [checkSolutionURL] }
  | .polling taskStruct checkSolutionURL, some solutionStruct :: rest, solution, sleeps,
      requests =>
      (match checkError taskStruct with
      | (errKey, some e) =>
          if errKey = "CAPCHA_NOT_READY" then
            SolveCaptchaLoop inst (.polling taskStruct checkSolutionURL) rest solution
              (sleeps + 1) (requests ++ [checkSolutionURL])
          else
            { outcome := .finished solution (some e), sleeps := sleeps,
              requests := requests ++ [checkSolutionURL] }
      | (_, none) =>
          SolveCaptchaLoop inst .creating rest solutionStruct.response sleeps
            (requests ++ [checkSolutionURL]))

/-- SolveCaptcha on a given instance and transport script, starting in the
task-creation phase with zero-value solution and finalErr. -/
def SolveCaptcha (inst : CaptchaInstance) (script : List (Option CaptchaResponse)) :
    SolveRun :=
  SolveCaptchaLoop inst .creating script "" 0 []

/-- Modelled from the spec: step 1 of construction says the poll interval
must be present and parseable as a non-negative duration. The source never
parses the value at construction time, so this predicate states only the
spec side, for comparison with the code. -/
def specParseableNonNegativeDuration (s : String) : Bool :=
  !s.data.isEmpty && s.data.all (fun c => c.isDigit)

/-- Claim C1: for valid construction inputs of all three variants, the claim
says NewInstance returns a populated instance whose task-creation target
holds the key and variant fields, with no error. The code instead reads the
unassigned CaptchaType field of the named return value when it builds the
task URL, so every such input takes the default branch: the zero instance
and the error invalid captcha type (this shouldn\x27t happen!) are returned
after the one balance call. -/
theorem newInstance_validInputs_alwaysFail :
    (NewInstance "APIKEY" "recaptchaV2"
        [("sitekey", "SK"), ("siteurl", "SU")]
        [("timeBetweenReqs", "5")] (some { status := 1, response := "42.5" }) =
      { inst := zeroInstance,
        finalErr := some "invalid captcha type (this shouldn\x27t happen!)",
        networkCalls := 1 }) ∧
    (NewInstance "APIKEY" "recaptchaV3"
        [("sitekey", "SK"), ("siteurl", "SU"), ("action", "verify"), ("minscore", ".3")]
        [("timeBetweenReqs", "5")] (some { status := 1, response := "42.5" }) =
      { inst := zeroInstance,
        finalErr := some "invalid captcha type (this shouldn\x27t happen!)",
        networkCalls := 1 }) ∧
    (NewInstance "APIKEY" "funcaptcha"
        [("key", "K"), ("surl", "S"), ("siteurl", "SU")]
        [("timeBetweenReqs", "5")] (some { status := 1, response := "42.5" }) =
      { inst := zeroInstance,
        finalErr := some "invalid captcha type (this shouldn\x27t happen!)",
        networkCalls := 1 }) := by
  refine ⟨rfl, rfl, rfl⟩

/-- Claim C4: with variant recaptchaV3 and minscore 0.5, outside the allowed
set, the claim says construction fails with the invalid-score error before
any network call. The code sets that error without breaking, issues the
balance call anyway, and then overwrites the error in the default switch
branch, returning a different error after one network call. -/
theorem newInstance_invalidScore_run :
    NewInstance "APIKEY" "recaptchaV3"
        [("sitekey", "SK"), ("siteurl", "SU"), ("action", "verify"), ("minscore", "0.5")]
        [("timeBetweenReqs", "5")] (some { status := 1, response := "42.5" }) =
      { inst := zeroInstance,
        finalErr := some "invalid captcha type (this shouldn\x27t happen!)",
        networkCalls := 1 } := by
  rfl

/-- Claim C5: on a task-creation script answering ERROR_NO_SLOT_AVAILABLE
once and then success with task id abc123, SolveCaptcha sleeps exactly one
poll interval before the second task-creation request, and the solution
check target it builds is the result endpoint with the API key, action=get
and id abc123. -/
theorem solveCaptcha_noSlot_retry (inst : CaptchaInstance) :
    SolveCaptcha inst
        [some { status := 0, response := "ERROR_NO_SLOT_AVAILABLE" },
         some { status := 1, response := "abc123" }] =
      { outcome := .outOfScript
          (.polling { status := 1, response := "abc123" }
            (capResultURL ++ "&key=" ++ inst.APIKey ++ "&action=get&id=" ++ "abc123")) "",
        sleeps := 1,
        requests := [inst.CreateTaskURL, inst.CreateTaskURL] } := by
  rfl

/-- Claim C2: on a script where task creation succeeds and the solution
polls answer CAPCHA_NOT_READY twice and then the token, the claim says
SolveCaptcha sleeps two poll intervals and returns SOLUTION_TOKEN with no
error. The code checks the task response instead of the solution response,
so it never sleeps: it stores CAPCHA_NOT_READY as the solution, restarts
task creation, fatally classifies the second not-ready answer there, and
returns that stored string with the error handled by program. -/
theorem solveCaptcha_notReadyTwice_run (inst : CaptchaInstance) :
    SolveCaptcha inst
        [some { status := 1, response := "abc123" },
         some { status := 0, response := "CAPCHA_NOT_READY" },
         some { status := 0, response := "CAPCHA_NOT_READY" },
         some { status := 1, response := "SOLUTION_TOKEN" }] =
      { outcome := .finished "CAPCHA_NOT_READY" (some "handled by program"),
        sleeps := 0,
        requests := [inst.CreateTaskURL,
          capResultURL ++ "&key=" ++ inst.APIKey ++ "&action=get&id=" ++ "abc123",
          inst.CreateTaskURL] } := by
  rfl

/-- Claim C3: on a script where task creation succeeds and the first
solution poll answers ERROR_WRONG_ID_FORMAT, the claim says SolveCaptcha
returns at once with the invalidly-formatted-captcha-id error and issues no
further requests. The code checks the task response instead, treats the
error string as the solution, and loops back to issue another task-creation
request, never returning that error. -/
theorem solveCaptcha_wrongIdFormat_run (inst : CaptchaInstance) :
    SolveCaptcha inst
        [some { status := 1, response := "abc123" },
         some { status := 0, response := "ERROR_WRONG_ID_FORMAT" }] =
      { outcome := .outOfScript .creating "ERROR_WRONG_ID_FORMAT",
        sleeps := 0,
        requests := [inst.CreateTaskURL,
          capResultURL ++ "&key=" ++ inst.APIKey ++ "&action=get&id=" ++ "abc123"] } := by
  rfl

/-- Claim C6: for each supported variant, constructing with the required
parameter conjunction falsified fails with the missing-parameter error for
that variant and issues zero network calls. -/
theorem newInstance_missingVariantParam (apiKey : String)
    (captchaParams settingParams : Smap) (balanceResp : Option CaptchaResponse)
    (hset : keyInMap settingParams "timeBetweenReqs" = true) :
    ((keyInMap captchaParams "sitekey" && keyInMap captchaParams "siteurl") = false →
      NewInstance apiKey "recaptchaV2" captchaParams settingParams balanceResp =
        { inst := zeroInstance,
          finalErr := some "missing parameter(s) within captchaParams for recaptchaV2",
          networkCalls := 0 }) ∧
    ((keyInMap captchaParams "sitekey" && keyInMap captchaParams "siteurl" &&
        keyInMap captchaParams "action" && keyInMap captchaParams "minscore") = false →
      NewInstance apiKey "recaptchaV3" captchaParams settingParams balanceResp =
        { inst := zeroInstance,
          finalErr := some "missing parameter(s) within captchaParams for recaptchaV3",
          networkCalls := 0 }) ∧
    ((keyInMap captchaParams "key" && keyInMap captchaParams "surl" &&
        keyInMap captchaParams "siteurl") = false →
      NewInstance apiKey "funcaptcha" captchaParams settingParams balanceResp =
        { inst := zeroInstance,
          finalErr := some "missing parameter(s) within captchaParams for funcaptcha",
          networkCalls := 0 }) := by
  refine ⟨fun h => ?_, fun h => ?_, fun h => ?_⟩ <;>
    simp [NewInstance, variantKeyCheck, hset, h, stringInSlice, validTypes]

/-- Claim C6 witness: empty captchaParams misses every required key, and
each variant then fails with its missing-parameter error and no network
call. -/
theorem newInstance_missingVariantParam_witness :
    keyInMap [("timeBetweenReqs", "5")] "timeBetweenReqs" = true ∧
    (keyInMap ([] : Smap) "sitekey" && keyInMap ([] : Smap) "siteurl") = false ∧
    NewInstance "k" "recaptchaV2" [] [("timeBetweenReqs", "5")] none =
      { inst := zeroInstance,
        finalErr := some "missing parameter(s) within captchaParams for recaptchaV2",
        networkCalls := 0 } :=
  ⟨by decide, by decide,
    (newInstance_missingVariantParam "k" [] [("timeBetweenReqs", "5")] none (by decide)).1
      (by decide)⟩

/-- Claim C7: an unparseable response body at any phase yields the
unmarshalling error at once with no retry of that request: the balance
check of NewInstance issues exactly one call, and in SolveCaptcha the
task-creation and solution-polling phases each issue exactly one further
request and finish. -/
theorem unmarshalFailure_fatal_noRetry :
    (∀ (apiKey captchaType : String) (captchaParams settingParams : Smap)
        (finalErr0 : Option String),
      keyInMap settingParams "timeBetweenReqs" = true →
      stringInSlice validTypes captchaType = true →
      variantKeyCheck captchaType captchaParams = .ok finalErr0 →
      NewInstance apiKey captchaType captchaParams settingParams none =
        { inst := zeroInstance,
          finalErr := some "error unmarshalling (this shouldn\x27t happen)",
          networkCalls := 1 }) ∧
    (∀ (inst : CaptchaInstance) (rest : List (Option CaptchaResponse))
        (solution : String) (sleeps : Nat) (requests : List String),
      SolveCaptchaLoop inst .creating (none :: rest) solution sleeps requests =
        { outcome := .finished solution
            (some "error unmarshalling (this shouldn\x27t happen)"),
          sleeps := sleeps, requests := requests ++ [inst.CreateTaskURL] }) ∧
    (∀ (inst : CaptchaInstance) (taskStruct : CaptchaResponse) (checkSolutionURL : String)
        (rest : List (Option CaptchaResponse)) (solution : String) (sleeps : Nat)
        (requests : List String),
      SolveCaptchaLoop inst (.polling taskStruct checkSolutionURL) (none :: rest)
          solution sleeps requests =
        { outcome := .finished solution
            (some "error unmarshalling (this shouldn\x27t happen)"),
          sleeps := sleeps, requests := requests ++ [checkSolutionURL] }) := by
  refine ⟨fun apiKey captchaType captchaParams settingParams finalErr0 h1 h2 h3 => ?_,
    fun inst rest solution sleeps requests => rfl,
    fun inst taskStruct checkSolutionURL rest solution sleeps requests => rfl⟩
  simp [NewInstance, h1, h2, h3]

/-- Claim C7 witness: a concrete valid recaptchaV2 configuration with an
unparseable balance body fails with the unmarshalling error after exactly
one call, and each solve phase finishes after one request on an unparseable
body. -/
theorem unmarshalFailure_fatal_noRetry_witness :
    keyInMap [("timeBetweenReqs", "5")] "timeBetweenReqs" = true ∧
    stringInSlice validTypes "recaptchaV2" = true ∧
    variantKeyCheck "recaptchaV2" [("sitekey", "SK"), ("siteurl", "SU")] =
      Except.ok (none : Option String) ∧
    NewInstance "k" "recaptchaV2" [("sitekey", "SK"), ("siteurl", "SU")]
        [("timeBetweenReqs", "5")] none =
      { inst := zeroInstance,
        finalErr := some "error unmarshalling (this shouldn\x27t happen)",
        networkCalls := 1 } :=
  ⟨by decide, by decide, rfl,
    unmarshalFailure_fatal_noRetry.1 "k" "recaptchaV2"
      [("sitekey", "SK"), ("siteurl", "SU")] [("timeBetweenReqs", "5")] none
      (by decide) (by decide) rfl⟩

/-- Claim C8 counterexample: the value abc of timeBetweenReqs is not
parseable as a non-negative duration, yet construction accepts the settings
map and proceeds to the variant check, whose invalid-type error is what the
run reports; the claim as stated requires the settings check to reject this
input. -/
theorem settingsCheck_presenceOnly_cex :
    specParseableNonNegativeDuration "abc" = false ∧
    NewInstance "k" "notatype" [] [("timeBetweenReqs", "abc")] none =
      { inst := zeroInstance, finalErr := some "invalid captcha type",
        networkCalls := 0 } :=
  ⟨rfl, rfl⟩

/-- Claim C8 as amended: construction checks only that the timeBetweenReqs
key is present, with no parseability or sign check on its value; absence
yields the missing-setting error whatever the variant is, presence moves on
to the variant-membership check, and a valid variant moves on to the
per-variant key checks. -/
theorem validationOrder_amended :
    (∀ (apiKey captchaType : String) (captchaParams settingParams : Smap)
        (balanceResp : Option CaptchaResponse),
      keyInMap settingParams "timeBetweenReqs" = false →
      NewInstance apiKey captchaType captchaParams settingParams balanceResp =
        { inst := zeroInstance,
          finalErr := some "missing parameter(s) within settingParams",
          networkCalls := 0 }) ∧
    (∀ (apiKey captchaType : String) (captchaParams settingParams : Smap)
        (balanceResp : Option CaptchaResponse),
      keyInMap settingParams "timeBetweenReqs" = true →
      stringInSlice validTypes captchaType = false →
      NewInstance apiKey captchaType captchaParams settingParams balanceResp =
        { inst := zeroInstance, finalErr := some "invalid captcha type",
          networkCalls := 0 }) ∧
    (∀ (apiKey : String) (captchaParams settingParams : Smap)
        (balanceResp : Option CaptchaResponse),
      keyInMap settingParams "timeBetweenReqs" = true →
      (keyInMap captchaParams "sitekey" && keyInMap captchaParams "siteurl") = false →
      NewInstance apiKey "recaptchaV2" captchaParams settingParams balanceResp =
        { inst := zeroInstance,
          finalErr := some "missing parameter(s) within captchaParams for recaptchaV2",
          networkCalls := 0 }) := by
  refine ⟨fun apiKey captchaType captchaParams settingParams balanceResp h => ?_,
    fun apiKey captchaType captchaParams settingParams balanceResp h1 h2 => ?_,
    fun apiKey captchaParams settingParams balanceResp h1 h2 => ?_⟩
  · simp [NewInstance, h]
  · simp [NewInstance, h1, h2]
  · simp [NewInstance, variantKeyCheck, h1, h2, stringInSlice, validTypes]

/-- Claim C8 amended witness: concrete inputs exercising all three ordered
checks: missing setting with an invalid variant reports the missing-setting
error, an unparseable but present setting reaches the variant check, and a
valid variant reaches the per-variant key check. -/
theorem validationOrder_amended_witness :
    keyInMap ([] : Smap) "timeBetweenReqs" = false ∧
    NewInstance "k" "notatype" [] [] none =
      { inst := zeroInstance,
        finalErr := some "missing parameter(s) within settingParams",
        networkCalls := 0 } ∧
    NewInstance "k" "notatype" [] [("timeBetweenReqs", "abc")] none =
      { inst := zeroInstance, finalErr := some "invalid captcha type",
        networkCalls := 0 } ∧
    NewInstance "k" "recaptchaV2" [] [("timeBetweenReqs", "abc")] none =
      { inst := zeroInstance,
        finalErr := some "missing parameter(s) within captchaParams for recaptchaV2",
        networkCalls := 0 } :=
  ⟨by decide,
    validationOrder_amended.1 "k" "notatype" [] [] none (by decide),
    validationOrder_amended.2.1 "k" "notatype" [] [("timeBetweenReqs", "abc")] none
      (by decide) (by decide),
    validationOrder_amended.2.2 "k" [] [("timeBetweenReqs", "abc")] none
      (by decide) (by decide)⟩

/-- Claim C9: a failure-status response whose code is not a key of the
captchaErrors table classifies as no error, and the task-creation phase
then treats it as success, using the unknown code string as the task id in
the solution-check target it moves on with. -/
theorem unknownErrorCode_treatedAsSuccess :
    (∀ r : CaptchaResponse, r.status = 0 →
      (∀ p ∈ captchaErrors, r.response ≠ p.1) →
      checkError r = ("", none)) ∧
    (∀ (inst : CaptchaInstance) (r : CaptchaResponse)
        (rest : List (Option CaptchaResponse)) (solution : String) (sleeps : Nat)
        (requests : List String),
      r.status = 0 →
      (∀ p ∈ captchaErrors, r.response ≠ p.1) →
      SolveCaptchaLoop inst .creating (some r :: rest) solution sleeps requests =
        SolveCaptchaLoop inst
          (.polling r
            (capResultURL ++ "&key=" ++ inst.APIKey ++ "&action=get&id=" ++ r.response))
          rest solution sleeps (requests ++ [inst.CreateTaskURL])) := by
  have hce : ∀ r : CaptchaResponse, r.status = 0 →
      (∀ p ∈ captchaErrors, r.response ≠ p.1) → checkError r = ("", none) := by
    intro r h0 hmem
    unfold checkError
    rw [h0, List.find?_eq_none.mpr (by simpa using hmem)]
    simp
  refine ⟨hce, fun inst r rest solution sleeps requests h0 hmem => ?_⟩
  simp only [SolveCaptchaLoop, hce r h0 hmem]

/-- Claim C9 witness: the unknown code SOME_NEW_ERROR on a failure-status
task response classifies as no error and flows into the solution-check
target as the task id. -/
theorem unknownErrorCode_treatedAsSuccess_witness :
    ({ status := 0, response := "SOME_NEW_ERROR" } : CaptchaResponse).status = 0 ∧
    (∀ p ∈ captchaErrors,
      ({ status := 0, response := "SOME_NEW_ERROR" } : CaptchaResponse).response ≠ p.1) ∧
    checkError { status := 0, response := "SOME_NEW_ERROR" } = ("", none) :=
  ⟨by decide, by decide,
    unknownErrorCode_treatedAsSuccess.1 { status := 0, response := "SOME_NEW_ERROR" }
      (by decide) (by decide)⟩

/-- NewInstance always returns the zero instance: every failing validation
path returns it directly, and the populated-instance branches are dead
because the later switch reads the unassigned CaptchaType field, which is
empty, and so always falls to the default branch. -/
theorem newInstance_inst_always_zero (apiKey captchaType : String)
    (captchaParams settingParams : Smap) (balanceResp : Option CaptchaResponse) :
    (NewInstance apiKey captchaType captchaParams settingParams balanceResp).inst =
      zeroInstance := by
  unfold NewInstance
  repeat' split
  all_goals first | rfl | simp_all [zeroInstance]

/-- Claim C10: whenever NewInstance returns a non-nil error, the returned
CaptchaInstance is the zero value with no field populated. -/
theorem newInstance_error_zeroInstance (apiKey captchaType : String)
    (captchaParams settingParams : Smap) (balanceResp : Option CaptchaResponse)
    (h : (NewInstance apiKey captchaType captchaParams settingParams balanceResp).finalErr ≠
      none) :
    (NewInstance apiKey captchaType captchaParams settingParams balanceResp).inst =
      zeroInstance :=
  newInstance_inst_always_zero apiKey captchaType captchaParams settingParams balanceResp

/-- Claim C10 witness: the empty input fails with a non-nil error and the
returned instance is the zero value. -/
theorem newInstance_error_zeroInstance_witness :
    (NewInstance "" "" [] [] none).finalErr ≠ none ∧
    (NewInstance "" "" [] [] none).inst = zeroInstance :=
  ⟨by decide, newInstance_error_zeroInstance "" "" [] [] none (by decide)⟩

end TwoCaptcha
